import Mathlib

/-!
Verification of the session normalization and aggregation pipeline of
`src/dashboard.py` (inference-dashboard).

The Python program is embedded shallowly:

* JSON documents and sessions become Lean structures whose fields are
  `Option`-valued where the corresponding JSON key may be absent; a `none`
  there means "key absent", and Python's `obj["key"]` on an absent key is a
  raised `KeyError`, modelled as `Except.error`.  Only for
  `escalation.required` do we additionally model a JSON `null` value
  (`some none`), because the nullable escalation value feeds the filter and
  rollup logic under verification; for the remaining fields a present key
  carries a plain value.
* `pd.to_datetime(x, errors="coerce")` is abstracted by a parse function
  `String → Option Int` (`none` = `NaT`); timestamps are integers (seconds).
* Python's builtin `min` over a list containing `NaT` is modelled by
  `pyMin`, faithful to CPython's `min` (pairwise `<`, where every
  comparison against `NaT` yields `False`).
* The scalar `pd.NaT` has no `to_period` method, so when `session_ts` is
  `NaT` the row dict raises `AttributeError` at
  `session_ts.to_period("W")` (`dashboard.py:64`) and no row is appended;
  `buildRow` models this as an error raised after the `KeyError`s of the
  earlier dict entries, matching the dict literal's evaluation order
  (`NaT.date()` at line 63 still succeeds, returning `NaT`).
* pandas column/groupby operations are modelled on `List SessionRow`:
  boolean-mask filtering is `List.filter`, `unique` is first-occurrence
  deduplication (`pdUnique`), `mean` skips nulls and yields `none` on an
  all-null group (`pdMean`), `groupby` sorts its (non-null) keys and drops
  null keys, and `Series == v` compares a null entry unequal to every `v`.
* `", ".join` / `.str.split(", ")` are modelled by `joinFlags` /
  `splitFlags` with CPython `str.split` semantics (in particular
  `"".split(", ") == [""]`).
-/

/-- A chat message; only its (optional) `timestamp` field is read by the
dashboard. -/
structure Message where
  timestamp : Option String
deriving DecidableEq, Repr

/-- The nested `escalation` record of `session_inference`.  `required` is
`Option (Option Bool)`: the outer layer models key presence (absent key
raises on subscript access), the inner layer models a JSON `null` value. -/
structure EscalationRec where
  required : Option (Option Bool)
  level : Option String
deriving DecidableEq, Repr

/-- The `session_inference` record.  Every field is `Option`-valued: `none`
models an absent key (Python raises `KeyError` on `inf["key"]`). -/
structure Inference where
  source : Option String
  primary_intent : Option String
  sentiment : Option String
  urgency : Option String
  escalation : Option EscalationRec
  complexity_score : Option ℚ
  resolution_confidence : Option ℚ
  topics : Option (List String)
  intent_flow : Option String
  risk_flags : Option (List String)
deriving DecidableEq, Repr

/-- A raw session from an input document.  `sessionId` is required by the
input contract; `messages` and `session_inference` keys may be absent. -/
structure RawSession where
  sessionId : String
  messages : Option (List Message)
  session_inference : Option Inference
deriving DecidableEq, Repr

/-- One flat row of the analytical table, the dict built at
`dashboard.py:49-66`.  `session_time`/`session_date`/`session_week` are
`Option Int`, mirroring the nullable pandas columns; the loop only ever
appends rows with a concrete timestamp, since a `NaT` `session_ts` raises
before the dict is completed. -/
structure SessionRow where
  sessionId : String
  source : String
  primary_intent : String
  sentiment : String
  urgency : String
  escalation : Option Bool
  escalation_level : String
  complexity_score : ℚ
  resolution_confidence : ℚ
  intent_count : Nat
  intent_flow : String
  risk_flags : String
  session_time : Option Int
  session_date : Option Int
  session_week : Option Int
  data_source : String
deriving DecidableEq, Repr

/-- Date component of a timestamp (`Timestamp.date()`): floor-division of
the epoch-seconds value by 86400. -/
def dateOf (t : Int) : Int := Int.fdiv t 86400

/-- Start of the pandas weekly period (`to_period("W").start_time`): the
Monday on or before the timestamp's date (pandas `W` = `W-SUN`, weeks end
on Sunday).  Day 0 (1970-01-01) is a Thursday. -/
def weekStartOf (t : Int) : Int := dateOf t - ((dateOf t + 3) % 7)

/-- Python `", ".join(flags)` (`dashboard.py:61`). -/
def joinFlags : List String → String
  | [] => ""
  | [f] => f
  | f :: fs => f ++ ", " ++ joinFlags fs

/-- Comparison step of CPython's builtin `min` on parsed timestamps:
`x < acc`, where any comparison involving `NaT` is `False`. -/
def optLtB : Option Int → Option Int → Bool
  | some a, some b => a < b
  | _, _ => false

/-- Accumulator loop of CPython's builtin `min`. -/
def pyMinAux (acc : Option Int) : List (Option Int) → Option Int
  | [] => acc
  | x :: xs => pyMinAux (if optLtB x acc then x else acc) xs

/-- CPython's builtin `min` over a nonempty list of parsed timestamps
(`min(timestamps)` at `dashboard.py:47`); `NaT` compares `False` against
everything, so it is only returned when it is the first element. -/
def pyMin : List (Option Int) → Option Int
  | [] => none
  | x :: xs => pyMinAux x xs

/-- Minimum of a list of integers (`none` on the empty list); used to state
what the minimum of the parseable timestamps is. -/
def intListMin : List Int → Option Int
  | [] => none
  | x :: xs => some (xs.foldl min x)

/-- The message timestamps kept by the comprehension at
`dashboard.py:39-43`: a timestamp is kept iff the `timestamp` key is
present and its value is truthy (a non-empty string). -/
def keptTimestampStrings (ms : List Message) : List String :=
  ms.filterMap fun m =>
    match m.timestamp with
    | some t => if t = "" then none else some t
    | none => none

/-- Python subscript access `obj["key"]`: the value when the key is
present, a raised `KeyError` otherwise. -/
def reqField {α : Type} (o : Option α) (k : String) : Except String α :=
  match o with
  | some v => v |> .ok
  | none => .error ("KeyError: " ++ k)

/-- Whether every `session_inference` key read by the row dict at
`dashboard.py:50-61` is present (including both keys of the nested
`escalation` record). -/
def infComplete (inf : Inference) : Bool :=
  inf.source.isSome && inf.primary_intent.isSome && inf.sentiment.isSome &&
  inf.urgency.isSome &&
  (match inf.escalation with
   | some esc => esc.required.isSome && esc.level.isSome
   | none => false) &&
  inf.complexity_score.isSome && inf.resolution_confidence.isSome &&
  inf.topics.isSome && inf.intent_flow.isSome && inf.risk_flags.isSome

/-- Construction of the row dict (`dashboard.py:49-66`) from a session's
inference record: each subscript access raises `KeyError` if the key is
absent, in the evaluation order of the dict literal; after them, when
`session_ts` is `NaT` the `session_week` entry raises `AttributeError`
(scalar `pd.NaT` has no `to_period`), so a row is only built for a
non-`NaT` `session_ts` (`NaT.date()` itself succeeds, so the
`session_date` entry at line 63 is not the raise site). -/
def buildRow (srcFile : String) (sessId : String) (session_ts : Option Int)
    (inf : Inference) : Except String SessionRow :=
  match inf.source with
  | none => .error "KeyError: source"
  | some source =>
  match inf.primary_intent with
  | none => .error "KeyError: primary_intent"
  | some primary_intent =>
  match inf.sentiment with
  | none => .error "KeyError: sentiment"
  | some sentiment =>
  match inf.urgency with
  | none => .error "KeyError: urgency"
  | some urgency =>
  match inf.escalation with
  | none => .error "KeyError: escalation"
  | some esc =>
  match esc.required with
  | none => .error "KeyError: required"
  | some escalation =>
  match esc.level with
  | none => .error "KeyError: level"
  | some escalation_level =>
  match inf.complexity_score with
  | none => .error "KeyError: complexity_score"
  | some complexity_score =>
  match inf.resolution_confidence with
  | none => .error "KeyError: resolution_confidence"
  | some resolution_confidence =>
  match inf.topics with
  | none => .error "KeyError: topics"
  | some topics =>
  match inf.intent_flow with
  | none => .error "KeyError: intent_flow"
  | some intent_flow =>
  match inf.risk_flags with
  | none => .error "KeyError: risk_flags"
  | some risk_flags =>
  match session_ts with
  | none => .error "AttributeError: to_period"
  | some ts =>
  .ok { sessionId := sessId, source, primary_intent, sentiment, urgency,
        escalation, escalation_level, complexity_score, resolution_confidence,
        intent_count := topics.length, intent_flow,
        risk_flags := joinFlags risk_flags,
        session_time := some ts,
        session_date := some (dateOf ts),
        session_week := some (weekStartOf ts),
        data_source := srcFile }

/-- One iteration of the normalization loop (`dashboard.py:36-66`) on a
session tagged with its source file: `.error` models a raised exception,
`.ok none` the `continue` for a session with no kept timestamps, and
`.ok (some row)` an appended row.  `s["session_inference"]` is read
(line 37) before the timestamp guard (line 44). -/
def normalizeSession (parse : String → Option Int) (srcFile : String)
    (s : RawSession) : Except String (Option SessionRow) :=
  match s.session_inference with
  | none => .error "KeyError: session_inference"
  | some inf =>
    match (keptTimestampStrings (s.messages.getD [])).map parse with
    | [] => .ok none
    | t :: ts =>
      match buildRow srcFile s.sessionId (pyMin (t :: ts)) inf with
      | .error e => .error e
      | .ok row => .ok (some row)

/-- The full normalization loop over the loaded sessions (each paired with
its `_source_file` tag); the first raised exception aborts the loop. -/
def normalizeAll (parse : String → Option Int) :
    List (String × RawSession) → Except String (List SessionRow)
  | [] => .ok []
  | (src, s) :: rest =>
    match normalizeSession parse src s with
    | .error e => .error e
    | .ok none => normalizeAll parse rest
    | .ok (some row) =>
      match normalizeAll parse rest with
      | .error e => .error e
      | .ok rows => .ok (row :: rows)

/-- What the filesystem holds at one configured location: the file may be
missing, unreadable as JSON, or parsed into a document whose `sessions`
key may itself be absent. -/
inductive FileContent where
  | missing
  | unparseable
  | parsed (sessions : Option (List RawSession))
deriving DecidableEq, Repr

/-- Whether `open` + `json.load` succeed on a location. -/
def isParsed : FileContent → Bool
  | .parsed _ => true
  | _ => false

/-- `path.split("/")[-1]` (`dashboard.py:27`). -/
def basename (p : String) : String := (p.splitOn "/").getLastD p

/-- The sessions a location contributes on success, each tagged with the
file's short identifier (`s["_source_file"] = path.split("/")[-1]`). -/
def taggedSessions (p : String) : FileContent → List (String × RawSession)
  | .parsed so => (so.getD []).map (fun s => (basename p, s))
  | _ => []

/-- `load_data` (`dashboard.py:19-29`): for each path, `open` raises
`FileNotFoundError` on a missing file and `json.load` raises
`JSONDecodeError` on an unparseable one — there is no exception handling,
so the first failure aborts the whole call; on success the document's
sessions (defaulting to `[]` when the `sessions` key is absent) are tagged
and concatenated in order. -/
def load_data (fs : String → FileContent) :
    List String → Except String (List (String × RawSession))
  | [] => .ok []
  | p :: ps =>
    match fs p with
    | .missing => .error ("FileNotFoundError: " ++ p)
    | .unparseable => .error ("JSONDecodeError: " ++ p)
    | .parsed so =>
      match load_data fs ps with
      | .error e => .error e
      | .ok rest => .ok (((so.getD []).map (fun s => (basename p, s))) ++ rest)

/-- `load_data` followed by the normalization loop: the construction of
`df` (`dashboard.py:31-68`). -/
def buildTable (parse : String → Option Int) (fs : String → FileContent)
    (files : List String) : Except String (List SessionRow) :=
  match load_data fs files with
  | .error e => .error e
  | .ok tagged => normalizeAll parse tagged

/-- First-occurrence deduplication, the semantics of pandas
`Series.unique`. -/
def pdUniqueAux {α : Type} [DecidableEq α] (seen : List α) : List α → List α
  | [] => []
  | a :: l => if a ∈ seen then pdUniqueAux seen l else a :: pdUniqueAux (a :: seen) l

/-- pandas `Series.unique`: distinct values in order of first
occurrence. -/
def pdUnique {α : Type} [DecidableEq α] (l : List α) : List α :=
  pdUniqueAux [] l

/-- `df["source"].unique()` (`dashboard.py:75`): a `pd.DataFrame` built
from an empty list of row dicts has no columns at all, so the column
subscript raises `KeyError` when the table is empty. -/
def sourceColumnUnique (df : List SessionRow) : Except String (List String) :=
  match df with
  | [] => .error "KeyError: source"
  | _ :: _ => .ok (pdUnique (df.map (fun r => r.source)))

/-- The pipeline up to the first sidebar widget: load, normalize, then read
the distinct values of the `source` column (`dashboard.py:19-77`). -/
def dashboardOptions (parse : String → Option Int) (fs : String → FileContent)
    (files : List String) : Except String (List String) :=
  match buildTable parse fs files with
  | .error e => .error e
  | .ok df => sourceColumnUnique df

/-- The sidebar's escalation selector (`dashboard.py:91-94`), with options
`["All", True, False]`. -/
inductive EscFilter where
  | all
  | only (b : Bool)
deriving DecidableEq, Repr

/-- The live selection state of the sidebar filters. -/
structure Selection where
  sources : List String
  intents : List String
  dataSources : List String
  escalation : EscFilter
deriving DecidableEq, Repr

/-- The three `isin` masks of `dashboard.py:96-100`, conjoined. -/
def applyFilters (df : List SessionRow) (sel : Selection) : List SessionRow :=
  df.filter fun r =>
    r.source ∈ sel.sources ∧ r.primary_intent ∈ sel.intents ∧
      r.data_source ∈ sel.dataSources

/-- The filtered view (`dashboard.py:96-103`): the conjunction of the three
membership masks, then — unless the selector is `All` — an equality mask
against the chosen boolean, under which a null (`none`) escalation entry
compares unequal to either boolean. -/
def filteredView (df : List SessionRow) (sel : Selection) : List SessionRow :=
  match sel.escalation with
  | .all => applyFilters df sel
  | .only b => (applyFilters df sel).filter fun r => r.escalation = some b

/-- Python `str.split(", ")` on the character list of a row's `risk_flags`
string: greedy left-to-right cut at each occurrence of the two-character
delimiter; splitting the empty string yields `[""]`. -/
def splitFlagsAux : List Char → List Char → List String
  | acc, [] => [String.mk acc.reverse]
  | acc, [c] => [String.mk (c :: acc).reverse]
  | acc, c1 :: c2 :: rest =>
    if c1 = ',' && c2 = ' '
    then String.mk acc.reverse :: splitFlagsAux [] rest
    else splitFlagsAux (c1 :: acc) (c2 :: rest)

/-- `row.risk_flags.str.split(", ")` (`dashboard.py:190`). -/
def splitFlags (s : String) : List String := splitFlagsAux [] s.toList

/-- The exploded multiset of individual risk flags over the filtered view
(`filtered["risk_flags"].str.split(", ").explode()`). -/
def flatFlags (rs : List SessionRow) : List String :=
  rs.flatMap (fun r => splitFlags r.risk_flags)

/-- `risk_counts` (`dashboard.py:188-195`): `value_counts` over the
exploded flags — every distinct exploded value, the empty string included,
paired with its number of occurrences.  (`value_counts` orders by
descending count; only the counts themselves are claimed, so the pairs are
listed in first-occurrence order here.) -/
def riskCounts (rs : List SessionRow) : List (String × Nat) :=
  (pdUnique (flatFlags rs)).map (fun f => (f, (flatFlags rs).count f))

/-- Insertion step of the ascending sort pandas `groupby` applies to its
group keys. -/
def insertSorted (x : Int) : List Int → List Int
  | [] => [x]
  | y :: ys => if x ≤ y then x :: y :: ys else y :: insertSorted x ys

/-- Ascending insertion sort on group keys (pandas `groupby` emits its
groups with sorted keys). -/
def sortInts : List Int → List Int
  | [] => []
  | x :: xs => insertSorted x (sortInts xs)

/-- pandas `mean` over a column of booleans with nulls removed: `NaN`
(`none`) for an empty column, otherwise the fraction of `true`s. -/
def pdMean (xs : List Bool) : Option ℚ :=
  if xs.isEmpty then none
  else some ((xs.countP id : ℚ) / (xs.length : ℚ))

/-- pandas `mean` over a numeric column: `NaN` (`none`) when empty. -/
def pdMeanQ (xs : List ℚ) : Option ℚ :=
  if xs.isEmpty then none else some (xs.sum / (xs.length : ℚ))

/-- One row of the `daily` rollup (`dashboard.py:240-250`). -/
structure DailyEntry where
  session_date : Int
  sessions : Nat
  escalation_rate : Option ℚ
  avg_complexity : Option ℚ
  avg_resolution : Option ℚ
deriving DecidableEq, Repr

/-- `daily` (`dashboard.py:240-250`): group the filtered view by
`session_date` (null dates dropped, keys ascending), count rows per day,
and take pandas means of `escalation` (nulls skipped), `complexity_score`
and `resolution_confidence`. -/
def dailyRollup (rs : List SessionRow) : List DailyEntry :=
  (sortInts (pdUnique (rs.filterMap (fun r => r.session_date)))).map fun d =>
    let grp := rs.filter (fun r => r.session_date = some d)
    { session_date := d,
      sessions := grp.length,
      escalation_rate := pdMean (grp.filterMap (fun r => r.escalation)),
      avg_complexity := pdMeanQ (grp.map (fun r => r.complexity_score)),
      avg_resolution := pdMeanQ (grp.map (fun r => r.resolution_confidence)) }

/-- `spikes` (`dashboard.py:298-301`): keep the rollup entries whose
`escalation_rate * 100` meets the threshold; an undefined (`NaN`) rate
compares `False` against the threshold and is never kept. -/
def spikes (daily : List DailyEntry) (threshold : ℚ) : List DailyEntry :=
  daily.filter fun e =>
    match e.escalation_rate with
    | some r => decide (threshold ≤ r * 100)
    | none => false

/-- Concrete stand-in for `pd.to_datetime(..., errors="coerce")` on the
demo timestamp strings used by the witnesses: three parseable strings,
everything else coerced to `NaT`. -/
def demoParse (s : String) : Option Int :=
  if s = "t3" then some 3
  else if s = "t7" then some 7
  else if s = "t90000" then some 90000
  else none

/-- A fully populated `escalation` record for demo sessions. -/
def demoEsc : EscalationRec := { required := some (some true), level := some "L1" }

/-- A fully populated `session_inference` record for demo sessions. -/
def demoInf : Inference :=
  { source := some "it_support", primary_intent := some "billing",
    sentiment := some "neutral", urgency := some "low",
    escalation := some demoEsc, complexity_score := some 2,
    resolution_confidence := some (9 / 10), topics := some ["billing"],
    intent_flow := some "single", risk_flags := some ["pii_shared"] }

/-- A well-formed session with two parseable timestamps. -/
def wSess : RawSession :=
  { sessionId := "w1", messages := some [⟨some "t3"⟩, ⟨some "t7"⟩],
    session_inference := some demoInf }

/-- The row `wSess` normalizes to. -/
def wRow : SessionRow :=
  { sessionId := "w1", source := "it_support", primary_intent := "billing",
    sentiment := "neutral", urgency := "low", escalation := some true,
    escalation_level := "L1", complexity_score := 2,
    resolution_confidence := 9 / 10, intent_count := 1,
    intent_flow := "single", risk_flags := "pii_shared",
    session_time := some 3, session_date := some 0, session_week := some (-3),
    data_source := "w.json" }

/-- A session with a timestamped message but no `session_inference` key. -/
def c1Sess : RawSession :=
  { sessionId := "c1", messages := some [⟨some "t3"⟩],
    session_inference := none }

/-- A session whose first message timestamp is present but unparseable and
whose second is parseable. -/
def c3Sess : RawSession :=
  { sessionId := "c3", messages := some [⟨some "bad"⟩, ⟨some "t7"⟩],
    session_inference := some demoInf }

/-- A generic analytical-table row for the filter/aggregation witnesses. -/
def baseRow : SessionRow :=
  { sessionId := "s", source := "it_support", primary_intent := "billing",
    sentiment := "neutral", urgency := "low", escalation := some false,
    escalation_level := "L1", complexity_score := 2, resolution_confidence := 1,
    intent_count := 1, intent_flow := "single", risk_flags := "",
    session_time := some 0, session_date := some 0, session_week := some (-3),
    data_source := "a.json" }

/-- Scenario A table: two rows on the same day, one escalated and one
not. -/
def scnA : List SessionRow :=
  [{ baseRow with escalation := some true }, baseRow]

/-- The rollup entry Scenario A's day produces. -/
def entryA : DailyEntry :=
  { session_date := 0, sessions := 2, escalation_rate := some (1 / 2),
    avg_complexity := some 2, avg_resolution := some 1 }

/-- A selection that allows `baseRow`'s categorical values and requires
escalation to be `true`. -/
def selReq : Selection :=
  { sources := ["it_support"], intents := ["billing"],
    dataSources := ["a.json"], escalation := EscFilter.only true }

/-- `baseRow` with a null escalation value. -/
def rowN : SessionRow := { baseRow with escalation := none }

/-- Rows carrying the Scenario B flag sets plus one row with an
originally-empty flag set. -/
def rowFlags2 : SessionRow := { baseRow with risk_flags := "pii_shared, auth_failure" }

/-- Row with a single risk flag. -/
def rowFlags1 : SessionRow := { baseRow with risk_flags := "pii_shared" }

/-- A filesystem for Scenario D: `b.json` holds five valid sessions and
every other location is missing. -/
def fsScenD : String → FileContent := fun p =>
  if p = "b.json"
  then FileContent.parsed (some (List.replicate 5 wSess))
  else FileContent.missing

/-- A filesystem on which every location parses but carries no `sessions`
key. -/
def fsAllEmpty : String → FileContent := fun _ => FileContent.parsed none

/-! ### Helper lemmas -/

theorem pyMinAux_none (xs : List (Option Int)) : pyMinAux none xs = none := by
  induction xs with
  | nil => rfl
  | cons x xs ih => simpa [pyMinAux, optLtB] using ih

theorem pyMinAux_some (xs : List (Option Int)) (a : Int) :
    pyMinAux (some a) xs = some ((xs.filterMap id).foldl min a) := by
  induction xs generalizing a with
  | nil => rfl
  | cons x xs ih =>
    rcases x with _ | b
    · simpa [pyMinAux, optLtB] using ih a
    · by_cases hba : b < a
      · simp [pyMinAux, optLtB, hba, ih b, min_eq_right (le_of_lt hba)]
      · simp [pyMinAux, optLtB, hba, ih a,
          min_eq_left (le_of_not_lt hba)]

theorem pyMin_cons_none (xs : List (Option Int)) :
    pyMin (none :: xs) = none := pyMinAux_none xs

theorem pyMin_cons_some (a : Int) (xs : List (Option Int)) :
    pyMin (some a :: xs) = intListMin ((some a :: xs).filterMap id) := by
  simp [pyMin, pyMinAux_some, intListMin, List.filterMap_cons]

theorem buildRow_isOk (srcFile sessId : String) (session_ts : Option Int)
    (inf : Inference) :
    (∃ row, buildRow srcFile sessId session_ts inf = .ok row) ↔
      infComplete inf = true ∧ session_ts.isSome = true := by
  obtain ⟨so, pin, sen, urg, esc, cs, rc, tp, ifl, rfl2⟩ := inf
  rcases so with _ | source
  · simp [buildRow, infComplete]
  rcases pin with _ | intent
  · simp [buildRow, infComplete]
  rcases sen with _ | sentiment
  · simp [buildRow, infComplete]
  rcases urg with _ | urgency
  · simp [buildRow, infComplete]
  rcases esc with _ | esc
  · simp [buildRow, infComplete]
  obtain ⟨req, lvl⟩ := esc
  rcases req with _ | req
  · simp [buildRow, infComplete]
  rcases lvl with _ | lvl
  · simp [buildRow, infComplete]
  rcases cs with _ | cs
  · simp [buildRow, infComplete]
  rcases rc with _ | rc
  · simp [buildRow, infComplete]
  rcases tp with _ | tp
  · simp [buildRow, infComplete]
  rcases ifl with _ | ifl
  · simp [buildRow, infComplete]
  rcases rfl2 with _ | rfl2
  · simp [buildRow, infComplete]
  rcases session_ts with _ | ts
  · simp [buildRow, infComplete]
  · simp [buildRow, infComplete]

theorem buildRow_none_ts (srcFile sessId : String) (inf : Inference)
    (hc : infComplete inf = true) :
    buildRow srcFile sessId none inf = .error "AttributeError: to_period" := by
  obtain ⟨so, pin, sen, urg, esc, cs, rc, tp, ifl, rfl2⟩ := inf
  rcases so with _ | source
  · simp [infComplete] at hc
  rcases pin with _ | intent
  · simp [infComplete] at hc
  rcases sen with _ | sentiment
  · simp [infComplete] at hc
  rcases urg with _ | urgency
  · simp [infComplete] at hc
  rcases esc with _ | esc
  · simp [infComplete] at hc
  obtain ⟨req, lvl⟩ := esc
  rcases req with _ | req
  · simp [infComplete] at hc
  rcases lvl with _ | lvl
  · simp [infComplete] at hc
  rcases cs with _ | cs
  · simp [infComplete] at hc
  rcases rc with _ | rc
  · simp [infComplete] at hc
  rcases tp with _ | tp
  · simp [infComplete] at hc
  rcases ifl with _ | ifl
  · simp [infComplete] at hc
  rcases rfl2 with _ | rfl2
  · simp [infComplete] at hc
  rfl

theorem pyMin_isSome_iff (t : Option Int) (ts : List (Option Int)) :
    (pyMin (t :: ts)).isSome = true ↔ t ≠ none := by
  rcases t with _ | a
  · simp [pyMin_cons_none]
  · rw [pyMin_cons_some]
    show (intListMin (a :: ts.filterMap id)).isSome = true ↔ _
    simp [intListMin]

theorem buildRow_time_date (srcFile sessId : String) (session_ts : Option Int)
    (inf : Inference) (row : SessionRow)
    (h : buildRow srcFile sessId session_ts inf = .ok row) :
    row.session_time = session_ts ∧ row.session_date = session_ts.map dateOf := by
  obtain ⟨so, pin, sen, urg, esc, cs, rc, tp, ifl, rfl2⟩ := inf
  rcases so with _ | source
  · simp [buildRow] at h
  rcases pin with _ | intent
  · simp [buildRow] at h
  rcases sen with _ | sentiment
  · simp [buildRow] at h
  rcases urg with _ | urgency
  · simp [buildRow] at h
  rcases esc with _ | esc
  · simp [buildRow] at h
  obtain ⟨req, lvl⟩ := esc
  rcases req with _ | req
  · simp [buildRow] at h
  rcases lvl with _ | lvl
  · simp [buildRow] at h
  rcases cs with _ | cs
  · simp [buildRow] at h
  rcases rc with _ | rc
  · simp [buildRow] at h
  rcases tp with _ | tp
  · simp [buildRow] at h
  rcases ifl with _ | ifl
  · simp [buildRow] at h
  rcases rfl2 with _ | rfl2
  · simp [buildRow] at h
  rcases session_ts with _ | ts
  · simp [buildRow] at h
  simp only [buildRow, Except.ok.injEq] at h
  subst h
  exact ⟨rfl, rfl⟩

theorem mem_pdUniqueAux {α : Type} [DecidableEq α] (l : List α) (seen : List α)
    (a : α) : a ∈ pdUniqueAux seen l ↔ a ∈ l ∧ a ∉ seen := by
  induction l generalizing seen with
  | nil => simp [pdUniqueAux]
  | cons b bs ih =>
    by_cases hb : b ∈ seen
    · rw [pdUniqueAux, if_pos hb, ih]
      constructor
      · rintro ⟨hmem, hns⟩
        exact ⟨List.mem_cons_of_mem b hmem, hns⟩
      · rintro ⟨hmem, hns⟩
        rcases List.mem_cons.mp hmem with rfl | hmem
        · exact absurd hb hns
        · exact ⟨hmem, hns⟩
    · rw [pdUniqueAux, if_neg hb]
      constructor
      · intro hmem
        rcases List.mem_cons.mp hmem with rfl | hmem
        · exact ⟨List.mem_cons_self a bs, hb⟩
        · obtain ⟨h1, h2⟩ := (ih (b :: seen)).mp hmem
          rw [List.mem_cons] at h2
          push_neg at h2
          exact ⟨List.mem_cons_of_mem b h1, h2.2⟩
      · rintro ⟨hmem, hns⟩
        rcases List.mem_cons.mp hmem with rfl | hmem
        · exact List.mem_cons_self a _
        · by_cases hab : a = b
          · exact hab ▸ List.mem_cons_self b _
          · refine List.mem_cons_of_mem b ((ih (b :: seen)).mpr ⟨hmem, ?_⟩)
            rw [List.mem_cons]
            push_neg
            exact ⟨hab, hns⟩

theorem mem_pdUnique {α : Type} [DecidableEq α] (l : List α) (a : α) :
    a ∈ pdUnique l ↔ a ∈ l := by
  rw [pdUnique, mem_pdUniqueAux]
  simp

theorem pdMean_eq_if (xs : List Bool) :
    pdMean xs = if xs.length = 0 then none
      else some ((xs.countP id : ℚ) / (xs.length : ℚ)) := by
  cases xs <;> simp [pdMean]

theorem length_filterMap_escalation (l : List SessionRow) :
    (l.filterMap (fun r => r.escalation)).length =
      (l.filter (fun r => r.escalation ≠ none)).length := by
  induction l with
  | nil => rfl
  | cons r rest ih =>
    rcases hr : r.escalation with _ | b <;>
      simp [List.filterMap_cons, List.filter_cons, hr, ih]

theorem countP_filterMap_escalation (l : List SessionRow) :
    (l.filterMap (fun r => r.escalation)).countP id =
      (l.filter (fun r => r.escalation = some true)).length := by
  induction l with
  | nil => rfl
  | cons r rest ih =>
    rcases hr : r.escalation with _ | b
    · simp [List.filterMap_cons, List.filter_cons, hr, ih]
    · cases b <;>
        simp [List.filterMap_cons, List.filter_cons, List.countP_cons, hr, ih]

theorem count_flatFlags (rs : List SessionRow) (f : String) :
    (flatFlags rs).count f =
      (rs.map (fun r => (splitFlags r.risk_flags).count f)).sum := by
  induction rs with
  | nil => rfl
  | cons r rest ih =>
    simp only [flatFlags] at ih ⊢
    simp [List.flatMap_cons, List.count_append, ih]

theorem load_data_empty_sessions (fs : String → FileContent) :
    ∀ files : List String,
      (∀ p ∈ files,
        fs p = FileContent.parsed none ∨ fs p = FileContent.parsed (some [])) →
      load_data fs files = .ok []
  | [], _ => rfl
  | p :: ps, h => by
    have hp := h p (List.mem_cons_self p ps)
    have ih := load_data_empty_sessions fs ps
      (fun q hq => h q (List.mem_cons_of_mem p hq))
    rcases hp with hp | hp <;> simp [load_data, hp, ih]

/-! ### Claim theorems -/

/-- C1 counterexample: a session with a valid timestamped message but no
`session_inference` key raises `KeyError` during normalization, instead of
normalizing the missing record to nulls. -/
theorem c1_missing_inference_raises :
    normalizeSession demoParse "f.json" c1Sess =
      .error "KeyError: session_inference" := rfl

/-- C1 amended: normalization of a session raises no error iff its
`session_inference` key is present and — whenever the session has at least
one kept timestamp, so that the row dict is actually built — every
`session_inference` subfield read by the row dict is present too AND the
first kept timestamp is parseable (otherwise `min` is `NaT` and the
`session_week` entry raises `AttributeError`).  Absence of `messages` or
of individual message timestamps never raises, but no missing
`session_inference` field is normalized to a null value. -/
theorem c1_normalize_ok_iff_inference_complete (parse : String → Option Int)
    (src : String) (s : RawSession) :
    (∃ r, normalizeSession parse src s = .ok r) ↔
      ∃ inf, s.session_inference = some inf ∧
        ∀ t ts, (keptTimestampStrings (s.messages.getD [])).map parse = t :: ts →
          infComplete inf = true ∧ t ≠ none := by
  rcases hsi : s.session_inference with _ | inf
  · simp [normalizeSession, hsi]
  rcases hts : (keptTimestampStrings (s.messages.getD [])).map parse
    with _ | ⟨t, ts⟩
  · simp [normalizeSession, hsi, hts]
  have hiff := buildRow_isOk src s.sessionId (pyMin (t :: ts)) inf
  constructor
  · rintro ⟨r, hr⟩
    simp only [normalizeSession, hsi, hts] at hr
    rcases hb : buildRow src s.sessionId (pyMin (t :: ts)) inf with e | row
    · rw [hb] at hr
      exact absurd hr (by simp)
    · obtain ⟨hcomp, hsome⟩ := hiff.mp ⟨row, hb⟩
      refine ⟨inf, rfl, fun t' ts' heq => ?_⟩
      obtain ⟨rfl, rfl⟩ : t = t' ∧ ts = ts' := by
        injection heq with h1 h2
        exact ⟨h1, h2⟩
      exact ⟨hcomp, (pyMin_isSome_iff t ts).mp hsome⟩
  · rintro ⟨inf2, hinf2, hall⟩
    rw [Option.some.injEq] at hinf2
    subst hinf2
    obtain ⟨hcomp, htne⟩ := hall t ts rfl
    obtain ⟨row, hb⟩ := hiff.mpr ⟨hcomp, (pyMin_isSome_iff t ts).mpr htne⟩
    exact ⟨some row, by simp [normalizeSession, hsi, hts, hb]⟩

/-- C2 counterexample: with the first configured location missing and the
second holding five valid sessions, `load_data` raises `FileNotFoundError`
at the first location — no warning, no continuation, and the five sessions
of the second document are not returned. -/
theorem c2_missing_file_aborts_load :
    load_data fsScenD ["missing.json", "b.json"] =
      .error "FileNotFoundError: missing.json" := rfl

/-- C2 amended: `load_data` has no error handling: it returns a session
sequence iff every configured location exists and parses, in which case the
result is the ordered concatenation of each document's tagged sessions; if
any location is absent or unparseable the call raises and nothing is
returned, not even sessions of previously loaded documents. -/
theorem c2_load_ok_iff_all_parsed (fs : String → FileContent)
    (files : List String) :
    ((∃ ss, load_data fs files = .ok ss) ↔
        ∀ p ∈ files, isParsed (fs p) = true) ∧
    ∀ ss, load_data fs files = .ok ss →
      ss = files.flatMap (fun p => taggedSessions p (fs p)) := by
  induction files with
  | nil => simp [load_data]
  | cons p ps ih =>
    obtain ⟨ih1, ih2⟩ := ih
    rcases hfp : fs p with _ | _ | so
    · refine ⟨⟨fun ⟨ss, hss⟩ => ?_, fun hall => ?_⟩, fun ss hss => ?_⟩
      · rw [load_data, hfp] at hss
        exact absurd hss (by simp)
      · have := hall p (List.mem_cons_self p ps)
        rw [hfp] at this
        exact absurd this (by simp [isParsed])
      · rw [load_data, hfp] at hss
        exact absurd hss (by simp)
    · refine ⟨⟨fun ⟨ss, hss⟩ => ?_, fun hall => ?_⟩, fun ss hss => ?_⟩
      · rw [load_data, hfp] at hss
        exact absurd hss (by simp)
      · have := hall p (List.mem_cons_self p ps)
        rw [hfp] at this
        exact absurd this (by simp [isParsed])
      · rw [load_data, hfp] at hss
        exact absurd hss (by simp)
    · rcases hrec : load_data fs ps with e | rest
      · refine ⟨⟨fun ⟨ss, hss⟩ => ?_, fun hall => ?_⟩, fun ss hss => ?_⟩
        · rw [load_data, hfp, hrec] at hss
          exact absurd hss (by simp)
        · obtain ⟨ss, hss⟩ := ih1.mpr
            (fun q hq => hall q (List.mem_cons_of_mem p hq))
          rw [hrec] at hss
          exact absurd hss (by simp)
        · rw [load_data, hfp, hrec] at hss
          exact absurd hss (by simp)
      · refine ⟨⟨fun _ => ?_, fun _ => ?_⟩, fun ss hss => ?_⟩
        · intro q hq
          rcases List.mem_cons.mp hq with rfl | hq
          · rw [hfp]; rfl
          · exact (ih1.mp ⟨rest, hrec⟩) q hq
        · exact ⟨_, by rw [load_data, hfp, hrec]⟩
        · rw [load_data, hfp, hrec, Except.ok.injEq] at hss
          subst hss
          rw [List.flatMap_cons]
          congr 1
          · rw [hfp]
            rfl
          · exact ih2 rest hrec

/-- C6: a row of the table is in the filtered view iff its `source`,
`primary_intent` and `data_source` are members of the respective allowed
sets and the escalation selector is either `All` or matches the row's
escalation boolean (`dashboard.py:96-103`). -/
theorem c6_filtered_view_membership (df : List SessionRow) (sel : Selection)
    (r : SessionRow) :
    r ∈ filteredView df sel ↔
      r ∈ df ∧ r.source ∈ sel.sources ∧ r.primary_intent ∈ sel.intents ∧
        r.data_source ∈ sel.dataSources ∧
        (sel.escalation = EscFilter.all ∨
          ∃ b, sel.escalation = EscFilter.only b ∧ r.escalation = some b) := by
  rcases hesc : sel.escalation with _ | b
  · simp [filteredView, hesc, applyFilters, List.mem_filter, and_assoc]
  · simp [filteredView, hesc, applyFilters, List.mem_filter, and_assoc]
    tauto

/-- C10: when the escalation selector requires a boolean, a row whose
escalation value is null is excluded from the filtered view regardless of
every other clause (`None == True` and `None == False` are both `False`
under the mask at `dashboard.py:103`). -/
theorem c10_null_escalation_excluded (df : List SessionRow) (sel : Selection)
    (b : Bool) (r : SessionRow) (hsel : sel.escalation = EscFilter.only b)
    (hr : r.escalation = none) : r ∉ filteredView df sel := by
  intro hmem
  simp only [filteredView, hsel] at hmem
  rw [List.mem_filter] at hmem
  have h2 := hmem.2
  rw [hr] at h2
  simp at h2

/-- C10 witness: a concrete null-escalation row that satisfies all three
membership clauses is dropped when the selector requires `True`. -/
theorem c10_null_escalation_excluded_witness :
    rowN ∉ filteredView [rowN] selReq :=
  c10_null_escalation_excluded [rowN] selReq true rowN rfl rfl

/-- C8: for every rollup and threshold, an entry is kept by the spike
detector iff its escalation rate is defined and `rate * 100` meets the
threshold inclusively, and the spike list is an order-preserving sublist of
the rollup; an empty result is an ordinary value, not an error
(`dashboard.py:298-301`). -/
theorem c8_spike_characterization (daily : List DailyEntry) (t : ℚ) :
    (∀ e, e ∈ spikes daily t ↔
        e ∈ daily ∧ ∃ r, e.escalation_rate = some r ∧ t ≤ r * 100) ∧
    (spikes daily t).Sublist daily := by
  constructor
  · intro e
    simp only [spikes]
    rw [List.mem_filter]
    refine and_congr_right fun _ => ?_
    rcases hr : e.escalation_rate with _ | r <;> simp [hr]
  · simp only [spikes]
    exact List.filter_sublist _

/-- C3 counterexample: a session whose first message timestamp is present
but unparseable and whose second parses to 7 has one parseable timestamp,
yet produces no row at all: `min` over the coerced list is `NaT` (the
`NaT` is not excluded), and the row dict then raises `AttributeError` at
`session_ts.to_period("W")`, aborting the loop. -/
theorem c3_nat_poisons_min :
    normalizeSession demoParse "f.json" c3Sess =
      .error "AttributeError: to_period" := rfl

/-- C3 amended: for a session with a complete inference record, no row and
no error is produced iff it has no kept timestamp — where a timestamp is
kept when present and non-empty, regardless of parseability.  When the
first kept timestamp is unparseable, `min` yields `NaT` (the coerced `NaT`
is not excluded from the `min` computation) and the loop raises
`AttributeError` at `to_period`, producing no row and aborting the run —
even when later timestamps are parseable, and likewise when no kept
timestamp is parseable.  Only when the first kept timestamp is parseable
is exactly one row produced, and its `session_time` is then the minimum of
the parseable timestamps (`NaT` never wins a comparison). -/
theorem c3_session_time_semantics (parse : String → Option Int) (src : String)
    (s : RawSession) (inf : Inference) (hinf : s.session_inference = some inf)
    (hc : infComplete inf = true) :
    ((keptTimestampStrings (s.messages.getD [])).map parse = [] →
        normalizeSession parse src s = .ok none) ∧
    (∀ ts, (keptTimestampStrings (s.messages.getD [])).map parse = none :: ts →
        normalizeSession parse src s = .error "AttributeError: to_period") ∧
    ∀ a ts,
      (keptTimestampStrings (s.messages.getD [])).map parse = some a :: ts →
      ∃ row, normalizeSession parse src s = .ok (some row) ∧
        row.session_time = intListMin ((some a :: ts).filterMap id) := by
  refine ⟨?_, ?_, ?_⟩
  · intro hts
    simp [normalizeSession, hinf, hts]
  · intro ts hts
    have hb := buildRow_none_ts src s.sessionId inf hc
    simp [normalizeSession, hinf, hts, pyMin_cons_none, hb]
  · intro a ts hts
    have hsome : (pyMin (some a :: ts)).isSome = true :=
      (pyMin_isSome_iff (some a) ts).mpr (by simp)
    obtain ⟨row, hb⟩ :=
      (buildRow_isOk src s.sessionId (pyMin (some a :: ts)) inf).mpr ⟨hc, hsome⟩
    refine ⟨row, ?_, ?_⟩
    · simp [normalizeSession, hinf, hts, hb]
    · rw [(buildRow_time_date src s.sessionId (pyMin (some a :: ts)) inf row hb).1]
      exact pyMin_cons_some a ts

/-- C3 witness: a session whose kept timestamps parse to 3 and 7 produces
exactly one row with `session_time = 3`, the minimum of its parseable
timestamps. -/
theorem c3_session_time_semantics_witness :
    ∃ row, normalizeSession demoParse "w.json" wSess = .ok (some row) ∧
      row.session_time = some 3 := by
  obtain ⟨row, hrow, hts⟩ :=
    (c3_session_time_semantics demoParse "w.json" wSess demoInf rfl (by rfl)).2.2
      3 [some 7] rfl
  exact ⟨row, hrow, by rw [hts]; rfl⟩

/-- C9: every row produced by the normalization loop has `session_date`
equal to the date component of its `session_time`
(`dashboard.py:62-63`). -/
theorem c9_session_date_invariant (parse : String → Option Int) (src : String)
    (s : RawSession) (row : SessionRow)
    (h : normalizeSession parse src s = .ok (some row)) :
    row.session_date = row.session_time.map dateOf := by
  rcases hsi : s.session_inference with _ | inf
  · simp [normalizeSession, hsi] at h
  rcases hts : (keptTimestampStrings (s.messages.getD [])).map parse
    with _ | ⟨t, ts⟩
  · simp [normalizeSession, hsi, hts] at h
  rcases hb : buildRow src s.sessionId (pyMin (t :: ts)) inf with e | row2
  · simp [normalizeSession, hsi, hts, hb] at h
  · simp only [normalizeSession, hsi, hts, hb, Except.ok.injEq,
      Option.some.injEq] at h
    obtain ⟨h1, h2⟩ :=
      buildRow_time_date src s.sessionId (pyMin (t :: ts)) inf row2 hb
    subst h
    rw [h2, h1]

/-- C9 witness: the concrete demo session normalizes to `wRow`, whose
`session_date` is the date component of its `session_time`. -/
theorem c9_session_date_invariant_witness :
    wRow.session_date = wRow.session_time.map dateOf :=
  c9_session_date_invariant demoParse "w.json" wSess wRow rfl

/-- C4 counterexample: rows with flag sets
`["pii_shared","auth_failure"]`, `["pii_shared"]` and `[]` yield the counts
of Scenario B plus a count of 1 for the empty string — the empty string
produced by splitting an originally-empty flag set is counted, not
skipped. -/
theorem c4_empty_flag_counted :
    riskCounts [rowFlags2, rowFlags1, baseRow] =
      [("pii_shared", 2), ("auth_failure", 1), ("", 1)] := rfl

/-- C4 amended: `riskCounts` splits each row's `risk_flags` on `", "`,
flattens across the filtered view and group-counts by value: a pair
`(f, n)` appears iff flag `f` occurs somewhere and `n` is the total number
of its occurrences over all rows — with no skipping of empty strings, so a
row with an originally-empty flag set contributes one occurrence of
`""`. -/
theorem c4_risk_counts_characterization (rs : List SessionRow) (f : String)
    (n : Nat) :
    (f, n) ∈ riskCounts rs ↔
      0 < n ∧
        n = (rs.map (fun r => (splitFlags r.risk_flags).count f)).sum := by
  simp only [riskCounts]
  constructor
  · intro hmem
    rw [List.mem_map] at hmem
    obtain ⟨g, hg, heq⟩ := hmem
    rw [Prod.mk.injEq] at heq
    obtain ⟨rfl, rfl⟩ := heq
    rw [mem_pdUnique] at hg
    exact ⟨List.count_pos_iff.mpr hg, count_flatFlags rs g⟩
  · rintro ⟨hpos, rfl⟩
    rw [List.mem_map]
    refine ⟨f, ?_, ?_⟩
    · rw [mem_pdUnique]
      rw [← count_flatFlags] at hpos
      exact List.count_pos_iff.mp hpos
    · rw [count_flatFlags]

/-- C5 counterexample: when every configured location parses but no
document carries sessions, `load_data` returns an empty sequence with no
fatal `NoData` signal of any kind. -/
theorem c5_empty_load_returns_ok :
    load_data fsAllEmpty ["a.json", "b.json"] = .ok [] := rfl

/-- C5 amended: there is no `NoData` condition.  When every location
parses but contributes no sessions, the loader returns the empty sequence,
normalization and table construction run on it producing an empty table,
and the run then dies with `KeyError: source` when the sidebar reads the
`source` column of the column-less empty DataFrame (aggregation is never
reached).  When a location is missing, the loader instead raises
`FileNotFoundError` there. -/
theorem c5_no_data_behaviour (parse : String → Option Int)
    (fs : String → FileContent) (files : List String)
    (h : ∀ p ∈ files,
      fs p = FileContent.parsed none ∨ fs p = FileContent.parsed (some [])) :
    load_data fs files = .ok [] ∧ buildTable parse fs files = .ok [] ∧
      dashboardOptions parse fs files = .error "KeyError: source" := by
  have hl := load_data_empty_sessions fs files h
  have hb : buildTable parse fs files = .ok [] := by
    simp only [buildTable, hl]
    rfl
  refine ⟨hl, hb, ?_⟩
  simp only [dashboardOptions, hb]
  rfl

/-- C5 witness: the all-parsed-but-sessionless filesystem at two concrete
locations. -/
theorem c5_no_data_behaviour_witness :
    load_data fsAllEmpty ["a.json", "b.json"] = .ok [] ∧
      buildTable demoParse fsAllEmpty ["a.json", "b.json"] = .ok [] ∧
      dashboardOptions demoParse fsAllEmpty ["a.json", "b.json"] =
        .error "KeyError: source" :=
  c5_no_data_behaviour demoParse fsAllEmpty ["a.json", "b.json"]
    (fun _ _ => Or.inl rfl)

/-- C7: every entry of the daily rollup has `sessions` equal to its day's
row count and `escalation_rate` equal to the mean of escalation as 1/0
over the day's rows with null escalations excluded from numerator and
denominator alike; a day with zero escalation-eligible rows gets `none`
(pandas `NaN`), not 0 (`dashboard.py:240-250`). -/
theorem c7_daily_escalation_rate (rs : List SessionRow) (e : DailyEntry)
    (he : e ∈ dailyRollup rs) :
    e.sessions =
      (rs.filter (fun r => r.session_date = some e.session_date)).length ∧
    e.escalation_rate =
      (if ((rs.filter (fun r => r.session_date = some e.session_date)).filter
            (fun r => r.escalation ≠ none)).length = 0 then none
       else some
        ((((rs.filter (fun r => r.session_date = some e.session_date)).filter
              (fun r => r.escalation = some true)).length : ℚ) /
         (((rs.filter (fun r => r.session_date = some e.session_date)).filter
              (fun r => r.escalation ≠ none)).length : ℚ))) := by
  simp only [dailyRollup] at he
  rw [List.mem_map] at he
  obtain ⟨d, hd, he⟩ := he
  subst he
  constructor
  · rfl
  · show pdMean ((rs.filter (fun r => r.session_date = some d)).filterMap
        (fun r => r.escalation)) =
      (if ((rs.filter (fun r => r.session_date = some d)).filter
            (fun r => r.escalation ≠ none)).length = 0 then none
       else some
        ((((rs.filter (fun r => r.session_date = some d)).filter
              (fun r => r.escalation = some true)).length : ℚ) /
         (((rs.filter (fun r => r.session_date = some d)).filter
              (fun r => r.escalation ≠ none)).length : ℚ)))
    rw [pdMean_eq_if, length_filterMap_escalation, countP_filterMap_escalation]

/-- C7 witness: Scenario A — one escalated and one non-escalated row on
the same day yield a rollup entry with `escalation_rate = 1/2`. -/
theorem c7_daily_escalation_rate_witness :
    entryA ∈ dailyRollup scnA ∧ entryA.sessions = 2 ∧
      entryA.escalation_rate = some (1 / 2) := by
  have hval : dailyRollup scnA = [entryA] := by
    show [({ session_date := 0, sessions := 2,
             escalation_rate := pdMean [true, false],
             avg_complexity := pdMeanQ [2, 2],
             avg_resolution := pdMeanQ [1, 1] } : DailyEntry)] = [entryA]
    norm_num [pdMean, pdMeanQ, entryA, List.countP_cons, List.countP_nil]
  have hm : entryA ∈ dailyRollup scnA := by
    rw [hval]
    exact List.mem_singleton_self _
  have h := c7_daily_escalation_rate scnA entryA hm
  refine ⟨hm, ?_, ?_⟩
  · rw [h.1]
    rfl
  · rw [h.2]
    have e1 : ((scnA.filter
          (fun r => r.session_date = some entryA.session_date)).filter
            (fun r => r.escalation = some true)).length = 1 := rfl
    have e2 : ((scnA.filter
          (fun r => r.session_date = some entryA.session_date)).filter
            (fun r => r.escalation ≠ none)).length = 2 := rfl
    rw [e1, e2]
    norm_num

